import Mathlib

/-
Shallow embedding of merlin/systems/dag/dictarray.py: the Column and DictArray
classes, the make-column and series-offset helpers, and the conversion paths
to and from the two external ragged-list dataframe encodings.

Arrays are modelled as integer buffers: a one-dimensional buffer holds a flat
list, a two-dimensional buffer holds its row count, row width and flattened
contents (numpy arrays are rectangular).  Each buffer carries the memory
domain it resides in (numpy arrays live on the host, cupy arrays on the
accelerator) and a dtype tag.  Python slice and index arithmetic (negative
indices, clamping) is embedded explicitly.
-/

namespace Dictarray

inductive Device where
  | CPU
  | GPU
deriving DecidableEq, Repr

inductive NPData where
  | d1 (xs : List Int)
  | d2 (rows width : Nat) (xs : List Int)
deriving DecidableEq, Repr

structure NPArray where
  data : NPData
  dom : Device
  dtype : String
deriving DecidableEq, Repr

/-- Length of the leading axis: what Python len() and shape[0] report. -/
def lenShape0 : NPData → Nat
  | .d1 xs => xs.length
  | .d2 r _ _ => r

/-- Flat contents of a buffer (value.flatten() in the source). -/
def flattenData : NPData → List Int
  | .d1 xs => xs
  | .d2 _ _ xs => xs

/-- The buffer's native shape tuple. -/
def natShape : NPData → List Nat
  | .d1 xs => [xs.length]
  | .d2 r w _ => [r, w]

/-- Resolve a Python slice bound for a sequence of length n: negative bounds
    count from the end and everything is clamped into the valid range. -/
def pyBound (n : Nat) (i : Int) : Nat :=
  if i < 0 then ((n : Int) + i).toNat else min i.toNat n

/-- Python slicing xs[start:stop] on a flat list. -/
def pySliceList (xs : List Int) (start stop : Int) : List Int :=
  let s := pyBound xs.length start
  let e := pyBound xs.length stop
  (xs.drop s).take (e - s)

/-- Python slicing a[start:stop] on an array: a 1-D array is sliced
    elementwise, a 2-D array is sliced along its leading (row) axis. -/
def sliceData : NPData → Int → Int → NPData
  | .d1 xs, a, b => .d1 (pySliceList xs a b)
  | .d2 r w xs, a, b =>
    let s := pyBound r a
    let e := pyBound r b
    .d2 (e - s) w ((xs.drop (s * w)).take ((e - s) * w))

/-- Python indexing xs[i] on a list: negative indices wrap, out of range
    raises IndexError (none). -/
def pyGet (xs : List Int) (i : Int) : Option Int :=
  let j := if i < 0 then (xs.length : Int) + i else i
  if 0 ≤ j && j < (xs.length : Int) then xs.get? j.toNat else none

/-- Running inclusive prefix sums, as np.cumsum computes them. -/
def cumsum (xs : List Int) : List Int :=
  (xs.scanl (· + ·) 0).tail

/-- Column.offsets in the source: np.cumsum(self.row_lengths) - 1. -/
def offsetsOf (rl : List Int) : List Int :=
  (cumsum rl).map (fun x => x - 1)

/-- Exclusive prefix sums of a length list: 0, rl0, rl0+rl1, ... -/
def exclusiveOffsets (rl : List Int) : List Int :=
  (rl.scanl (· + ·) 0).dropLast

/--
Column: values buffer, optional per-row length array, dtype derived from the
values, and the device tag assigned at construction.  The row_lengths array is
kept as its numeric contents (the source stores a numpy or cupy array, or a
plain Python list in the 2-D branch; only its numbers matter to the claims).
-/
structure Column where
  values : NPArray
  row_lengths : Option (List Int)
  dtype : String
  _device : Device
deriving DecidableEq, Repr

/-- Column.__init__: stores values and row_lengths; when the values buffer is
    2-D it overrides row_lengths with [width] * rows while leaving the values
    buffer itself un-flattened; the device tag is read off the buffer's type
    (numpy means CPU, cupy means GPU; any other type raises TypeError, a case
    the buffer model cannot represent). -/
def colInit (values : NPArray) (row_lengths : Option (List Int)) : Column :=
  let rl := match values.data with
    | .d2 r w _ => some (List.replicate r (w : Int))
    | .d1 _ => row_lengths
  { values := values, row_lengths := rl, dtype := values.dtype, _device := values.dom }

/-- Convenience: a host-resident numpy int64 buffer. -/
def npHost (d : NPData) : NPArray :=
  { data := d, dom := Device.CPU, dtype := "int64" }

/-- Column.__len__: row count via row_lengths when present, else the buffer
    length. -/
def colLen (c : Column) : Nat :=
  match c.row_lengths with
  | some rl => rl.length
  | none => lenShape0 c.values.data

/-- Column.is_ragged: row_lengths present and not all entries equal to the
    first (the source indexes row_lengths[0], which would raise IndexError on
    an empty length array; that case is unreachable in the claims and yields
    false here since any over the empty list is false). -/
def is_ragged (c : Column) : Bool :=
  match c.row_lengths with
  | some rl => rl.any (fun y => y != rl.headI)
  | none => false

inductive ShapeV where
  | pair (rows : Nat) (width : Option Int)
  | native (dims : List Nat)
deriving DecidableEq, Repr

/-- Column.shape: when row_lengths is present the source returns
    (len(self), row_lengths[0] if self.is_ragged else None); otherwise the
    buffer's native shape. -/
def shape (c : Column) : ShapeV :=
  match c.row_lengths with
  | some rl => .pair (colLen c) (if is_ragged c then some rl.headI else none)
  | none => .native (natShape c.values.data)

/-- Column.is_list: 2-D buffer, or row_lengths present.  The source's further
    disjunct (values[0] is itself an array) covers object arrays of boxed
    rows, which the scalar integer buffer model cannot hold, and would raise
    IndexError for an empty flat buffer; both branches are false here. -/
def is_list (c : Column) : Bool :=
  (match c.values.data with | .d2 _ _ _ => true | .d1 _ => false) || c.row_lengths.isSome

inductive PyVal where
  | int (x : Int)
  | arr (a : NPData)
deriving DecidableEq, Repr

/-- Column.__getitem__: with row_lengths present, start = offsets[index],
    end = start + row_lengths[index], result values[start:end]; without
    row_lengths, plain indexing of the buffer (an IndexError is none). -/
def getitem (c : Column) (i : Int) : Option PyVal :=
  match c.row_lengths with
  | some rl => do
    let start ← pyGet (offsetsOf rl) i
    let len ← pyGet rl i
    pure (.arr (sliceData c.values.data start (start + len)))
  | none =>
    match c.values.data with
    | .d1 xs => (pyGet xs i).map .int
    | .d2 r w xs =>
      let j := if i < 0 then (r : Int) + i else i
      if 0 ≤ j && j < (r : Int) then
        some (.arr (.d1 ((xs.drop (j.toNat * w)).take w)))
      else none

/-- Modelled from the spec: cupy.asarray (cupy is an external dependency, not
    in src) copies a buffer into accelerator memory preserving its numeric
    contents and dtype. -/
def cupy_asarray (a : NPArray) : NPArray :=
  { a with dom := Device.GPU }

/-- Modelled from the spec: cupy.asnumpy copies a buffer back into host
    memory preserving its numeric contents and dtype. -/
def cupy_asnumpy (a : NPArray) : NPArray :=
  { a with dom := Device.CPU }

/-- Column._device_move: applies the conversion to the values buffer (the
    source also applies it to the row_lengths array; the modelled row_lengths
    is the bare list of its numbers, which the conversion preserves).  Note
    the _device tag field is not touched. -/
def device_move (c : Column) (fn : NPArray → NPArray) : Column :=
  { c with values := fn c.values }

inductive DevErr where
  | cupyMissing
deriving DecidableEq, Repr

/-- Column.device setter: raises ValueError whenever cupy is not installed,
    before looking at the target; then moves CPU to GPU or GPU to CPU, and
    otherwise does nothing.  The setter never assigns self._device, so the
    tag field keeps its construction-time value even after a move.  (String
    targets and the setter's return value are irrelevant here: cpu() and
    gpu() always return self.) -/
def setDevice (cupyAvail : Bool) (c : Column) (target : Device) : Except DevErr Column :=
  if !cupyAvail then .error .cupyMissing
  else if c._device == Device.CPU && target == Device.GPU then
    .ok (device_move c cupy_asarray)
  else if c._device == Device.GPU && target == Device.CPU then
    .ok (device_move c cupy_asnumpy)
  else
    .ok c

/-- Column.cpu: self.device = Device.CPU; return self. -/
def colCpu (cupyAvail : Bool) (c : Column) : Except DevErr Column :=
  setDevice cupyAvail c Device.CPU

/-- Column.gpu: self.device = Device.GPU; return self. -/
def colGpu (cupyAvail : Bool) (c : Column) : Except DevErr Column :=
  setDevice cupyAvail c Device.GPU

/-- Invariant I1 as a decidable check: when row_lengths is present its sum
    equals the values buffer's leading length. -/
def I1b (c : Column) : Bool :=
  match c.row_lengths with
  | some rl => rl.sum == (lenShape0 c.values.data : Int)
  | none => true

/-
Dataframe side.  A dataframe column (series) is either a flat non-list
column, an Encoding A list column (one sub-array object per row, the pandas
convention), or an Encoding B list column (one flat child buffer plus a
boundary array, the cudf convention).
-/

inductive PySeries where
  | flat (vals : List Int)
  | listA (rows : List (List Int))
  | listB (vals : List Int) (bounds : List Int)
deriving DecidableEq, Repr

structure DF where
  cols : List (String × PySeries)
deriving DecidableEq, Repr

inductive DFLib where
  | pandas
  | cudf
deriving DecidableEq, Repr

/-- Modelled from the spec: is_list_dtype from merlin.core.dispatch (not in
    src) detects list-typed series of either encoding. -/
def is_list_dtype : PySeries → Bool
  | .flat _ => false
  | .listA _ => true
  | .listB _ _ => true

/-- Adjacent differences bounds[1:] - bounds[:-1], as the cudf branch of
    get_series_offsets computes them from the boundary array. -/
def diffs (b : List Int) : List Int :=
  (b.tail.zip b).map (fun p => p.1 - p.2)

/-- get_series_offsets from the source: empty for non-list series; per-row
    len() for a pandas (Encoding A) series; the vectorized difference of the
    stored boundary array for a cudf (Encoding B) series.  No monotonicity or
    length-consistency check is performed anywhere. -/
def get_series_offsets : PySeries → List Int
  | .flat _ => []
  | .listA rows => rows.map (fun r => (r.length : Int))
  | .listB _ bounds => diffs bounds

/-- Modelled from the spec: build_pandas_list_column from merlin.core.dispatch
    (not in src); section 4.2 Encoding A construction slices the flat values
    at each exclusive-prefix-sum offset for the given row length. -/
def build_pandas_list_column (vals : List Int) (rl : List Int) : PySeries :=
  .listA (((exclusiveOffsets rl).zip rl).map (fun p => pySliceList vals p.1 (p.1 + p.2)))

/-- Modelled from the spec: build_cudf_list_column from merlin.core.dispatch
    (not in src); Encoding B pairs the flat child buffer with the caller's
    boundary array as-is. -/
def build_cudf_list_column (vals : List Int) (bounds : List Int) : PySeries :=
  .listB vals bounds

/-- Modelled from the spec: flatten_list_column_values from
    merlin.core.dispatch (not in src); the concatenation of the rows in row
    order yields the flat values (section 4.2): for Encoding A the rows are
    joined, for Encoding B row i is vals[bounds[i] : bounds[i+1]]. -/
def flatten_list_column_values : PySeries → List Int
  | .flat vals => vals
  | .listA rows => rows.flatten
  | .listB vals bounds =>
    ((bounds.zip bounds.tail).map (fun p => pySliceList vals p.1 p.2)).flatten

structure DictArray where
  cols : List (String × Column)
deriving DecidableEq, Repr

inductive ColumnInput where
  | col (c : Column)
  | pair (values : NPArray) (rl : List Int)
  | arr (a : NPArray)
deriving DecidableEq, Repr

/-- The module-level _make_column helper: an existing Column passes through;
    a (values, row_lengths) tuple becomes Column(values, row_lengths); a 2-D
    array is flattened and given row_lengths = [width] * rows; a 1-D array
    becomes a bare Column.  (The rank-above-2 ValueError branch cannot be
    represented: the buffer model has at most two dimensions.) -/
def make_column : ColumnInput → Column
  | .col c => c
  | .pair v rl => colInit v (some rl)
  | .arr a =>
    match a.data with
    | .d2 r w xs =>
      colInit { a with data := .d1 xs } (some (List.replicate r (w : Int)))
    | .d1 _ => colInit a none

/-- DictArray.__init__: every raw value is normalized through _make_column. -/
def dictArrayOf (xs : List (String × ColumnInput)) : DictArray :=
  ⟨xs.map (fun p => (p.1, make_column p.2))⟩

/-- DictArray.dtypes. -/
def dtypes (t : DictArray) : List (String × String) :=
  t.cols.map (fun p => (p.1, p.2.dtype))

/-- Per-column body of DictArray.to_df: a list column is re-encoded for the
    target library (pandas gets the values with the row_lengths, cudf gets
    the values with Column.offsets extended by values.shape[0]; the source's
    astype to int32 only retags the boundary array's dtype and is dropped);
    a non-list column is copied flat.  The is_list-but-no-row_lengths case is
    unreachable for columns built by the constructors above. -/
def colToSeries (lib : DFLib) (c : Column) : PySeries :=
  if is_list c then
    match lib, c.row_lengths with
    | .pandas, some rl => build_pandas_list_column (flattenData c.values.data) rl
    | .cudf, some rl =>
      build_cudf_list_column (flattenData c.values.data)
        (offsetsOf rl ++ [(lenShape0 c.values.data : Int)])
    | _, none => .flat (flattenData c.values.data)
  else .flat (flattenData c.values.data)

/-- DictArray.to_df: get_lib() picks pandas or cudf for the environment,
    modelled as an explicit parameter. -/
def to_df (lib : DFLib) (t : DictArray) : DF :=
  ⟨t.cols.map (fun p => (p.1, colToSeries lib p.2))⟩

/-- Per-column body of DictArray.from_df: a list-typed series contributes the
    (flattened values, get_series_offsets) pair, a flat series contributes
    its buffer; both are then normalized by _make_column inside
    DictArray.__init__.  Buffers extracted on the host side are tagged CPU;
    only their numeric contents matter to the claims. -/
def seriesToColumn : PySeries → Column
  | .flat vals => make_column (.arr (npHost (.d1 vals)))
  | .listA rows =>
    make_column (.pair (npHost (.d1 (flatten_list_column_values (.listA rows))))
      (get_series_offsets (.listA rows)))
  | .listB vals bounds =>
    make_column (.pair (npHost (.d1 (flatten_list_column_values (.listB vals bounds))))
      (get_series_offsets (.listB vals bounds)))

/-- DictArray.from_df. -/
def from_df (df : DF) : DictArray :=
  ⟨df.cols.map (fun p => (p.1, seriesToColumn p.2))⟩

/-- CPython object allocation for dict view objects, modelled by a counter:
    each call to dict.values() creates a fresh dict_values view object with a
    new identity. -/
def freshView (ctr : Nat) : Nat × Nat := (ctr, ctr + 1)

/-- DictArray.__eq__: self.values() == other.values() and
    self.dtypes() == other.dtypes().  dict_values does not implement
    structural equality, so the comparison of the two freshly allocated view
    objects falls back to object identity, modelled as comparison of the two
    fresh allocation ids. -/
def dictArrayEq (ctr : Nat) (a b : DictArray) : Bool :=
  let v1 := freshView ctr
  let v2 := freshView v1.2
  (v1.1 == v2.1) && (dtypes a == dtypes b)

/-
Spec-side definitions, written from the spec's words for comparison with the
source functions above.
-/

/-- Spec-side definition (section 4.1): offset(i) is the exclusive prefix sum
    of row_lengths, offset(0) = 0 and offset(i) = offset(i-1) + rl(i-1). -/
def spec_offset (rl : List Int) : List Int := exclusiveOffsets rl

/-- Spec-side definition (section 4.1): row(i) is the slice
    values[offset(i) : offset(i) + row_lengths[i]]. -/
def spec_row (vals rl : List Int) (i : Nat) : List Int :=
  let off := (spec_offset rl).getD i 0
  pySliceList vals off (off + rl.getD i 0)

/-- Spec-side definition (section 4.1): width is the fixed per-row length
    when all row_lengths are equal, otherwise none. -/
def spec_shape (c : Column) : ShapeV :=
  match c.row_lengths with
  | some rl => .pair (colLen c) (if rl.all (fun y => y == rl.headI) then some rl.headI else none)
  | none => .native (natShape c.values.data)

/-
Concrete columns and tables shared by the theorems below.
-/

def cRagged : Column := colInit (npHost (.d1 [1, 2, 3, 4, 5, 6])) (some [2, 3, 1])

def cUniform : Column :=
  colInit (npHost (.d1 [1, 2, 3, 4, 5, 6, 7, 8, 9, 10, 11, 12])) (some [4, 4, 4])

def tRagged : DictArray := ⟨[("a", cRagged)]⟩

def cFlat3 : Column := colInit (npHost (.d1 [1, 2, 3])) none

def cPair22 : Column := colInit (npHost (.d1 [1, 2, 3, 4])) (some [2, 2])

/-
Theorems.
-/

/-- C1: row extraction on Column([1,2,3,4,5,6], row_lengths=[2,3,1]).  The
    source computes offsets as cumsum(row_lengths) - 1, i.e. [1,4,5], so
    row(1) evaluates to values[4:7] = [5,6]; the claimed exclusive
    prefix sum gives offsets [0,2,5] and row(1) = values[2:5] = [3,4,5].
    The code diverges from the claim at this input. -/
theorem C1_row_extraction_eval :
    getitem cRagged 1 = some (.arr (.d1 [5, 6]))
    ∧ spec_row [1, 2, 3, 4, 5, 6] [2, 3, 1] 1 = [3, 4, 5]
    ∧ (NPData.d1 [5, 6]) ≠ (NPData.d1 [3, 4, 5]) := by
  refine ⟨by decide, by decide, by decide⟩

/-- C2: Encoding B round trip over the table {a : values [1..6],
    row_lengths [2,3,1]}.  to_df emits the boundary array [1,4,5,6]
    (Column.offsets, cumsum minus one, appended with the buffer length), so
    from_df reconstructs row_lengths [3,1,1] and values [2,3,4,5,6]: the
    round trip does not reproduce the table. -/
theorem C2_roundtrip_eval :
    to_df .cudf tRagged = ⟨[("a", .listB [1, 2, 3, 4, 5, 6] [1, 4, 5, 6])]⟩
    ∧ (from_df (to_df .cudf tRagged)).cols
        = [("a", colInit (npHost (.d1 [2, 3, 4, 5, 6])) (some [3, 1, 1]))]
    ∧ from_df (to_df .cudf tRagged) ≠ tRagged := by
  refine ⟨by decide, by decide, by decide⟩

/-- C3 counterexample: Column.__init__ performs no validation, so
    Column([1,2,3], row_lengths=[5]) is constructed although
    sum(row_lengths) = 5 differs from len(values) = 3: invariant I1 does not
    hold after every construction from a (values, row_lengths) pair. -/
theorem C3_counterexample :
    (colInit (npHost (.d1 [1, 2, 3])) (some [5])).row_lengths = some [5]
    ∧ I1b (colInit (npHost (.d1 [1, 2, 3])) (some [5])) = false := by
  refine ⟨by decide, by decide⟩

/-- C3 amended: invariant I1 is not enforced on (values, row_lengths) pairs;
    it does hold for columns normalized from a 2-D buffer by _make_column,
    and every successful device transfer preserves it. -/
theorem C3_invariant_amended :
    (∀ (r w : Nat) (xs : List Int) (dev : Device) (dt : String),
      xs.length = r * w →
      I1b (make_column (.arr { data := .d2 r w xs, dom := dev, dtype := dt })) = true)
    ∧ (∀ (avail : Bool) (c : Column) (target : Device) (c' : Column),
      I1b c = true → setDevice avail c target = .ok c' → I1b c' = true) := by
  constructor
  · intro r w xs dev dt h
    simp [make_column, colInit, I1b, lenShape0, List.sum_replicate, h, nsmul_eq_mul]
  · intro avail c target c' hI hset
    cases avail with
    | false => simp [setDevice] at hset
    | true =>
      simp only [setDevice, Bool.not_true, Bool.false_eq_true, if_false] at hset
      split at hset
      · cases hset
        simpa [I1b, device_move, cupy_asarray] using hI
      · split at hset
        · cases hset
          simpa [I1b, device_move, cupy_asnumpy] using hI
        · cases hset
          exact hI

/-- C3 witness: the amended invariant theorem applied at a concrete 2-D
    construction and at a concrete host-to-accelerator transfer. -/
theorem C3_invariant_witness :
    I1b (make_column (.arr (npHost (.d2 2 3 [1, 2, 3, 4, 5, 6])))) = true
    ∧ I1b (device_move cPair22 cupy_asarray) = true :=
  ⟨C3_invariant_amended.1 2 3 [1, 2, 3, 4, 5, 6] Device.CPU "int64" (by decide),
   C3_invariant_amended.2 true cPair22 Device.GPU (device_move cPair22 cupy_asarray)
     (by decide) rfl⟩

/-- C4 counterexample: Column.__init__ applied directly to the 2-D buffer
    [[1,2],[3,4]] sets row_lengths = [2,2] but leaves the values buffer 2-D,
    so the result differs from Column([1,2,3,4], row_lengths=[2,2]) and even
    row access distinguishes the two (row 0 is the second matrix row versus
    the slice [2,3], both already misaligned by the offsets formula). -/
theorem C4_counterexample :
    (colInit (npHost (.d2 2 2 [1, 2, 3, 4])) none).row_lengths = some [2, 2]
    ∧ colInit (npHost (.d2 2 2 [1, 2, 3, 4])) none ≠ cPair22
    ∧ getitem (colInit (npHost (.d2 2 2 [1, 2, 3, 4])) none) 0 ≠ getitem cPair22 0 := by
  refine ⟨by decide, by decide, by decide⟩

/-- C4 amended: the 2-D equivalence holds for the _make_column normalizer
    used by DictArray: a 2-D buffer of shape (rows, width) is flattened and
    paired with row_lengths = [width] * rows, identical to constructing from
    the flattened buffer with that length list; direct Column construction
    does not flatten and is excluded. -/
theorem C4_make_column_equiv :
    ∀ (r w : Nat) (xs : List Int) (dev : Device) (dt : String),
      make_column (.arr { data := .d2 r w xs, dom := dev, dtype := dt })
        = make_column (.pair { data := .d1 xs, dom := dev, dtype := dt }
            (List.replicate r (w : Int))) := by
  intro r w xs dev dt
  rfl

/-- C5: shape evaluation.  For the uniform column (row_lengths [4,4,4]) the
    source returns (3, None) where the claim requires (3, 4); for the ragged
    column (row_lengths [2,3,1]) the source returns (3, 2), the first row
    length, where the claim requires (3, None): the width report is inverted
    relative to the claim, as the spec-side definition shows. -/
theorem C5_shape_eval :
    shape cUniform = .pair 3 none
    ∧ spec_shape cUniform = .pair 3 (some 4)
    ∧ shape cRagged = .pair 3 (some 2)
    ∧ spec_shape cRagged = .pair 3 none := by
  refine ⟨by decide, by decide, by decide, by decide⟩

/-- C6 counterexample: the non-monotonic boundary array [0,3,2] is not
    rejected: get_series_offsets returns the raw differences [3,-1] and
    from_df produces a table whose column carries them as row_lengths; no
    error of any kind is raised. -/
theorem C6_counterexample :
    get_series_offsets (.listB [10, 20, 30] [0, 3, 2]) = [3, -1]
    ∧ from_df ⟨[("a", .listB [10, 20, 30] [0, 3, 2])]⟩
        = ⟨[("a", colInit (npHost (.d1 [10, 20, 30])) (some [3, -1]))]⟩ := by
  refine ⟨by decide, by decide⟩

/-- C6 amended: from_df applies no validation to Encoding B boundaries: for
    every boundary array it produces a table whose column's row_lengths are
    exactly the adjacent boundary differences (negative wherever the
    boundaries decrease). -/
theorem C6_no_validation :
    ∀ (name : String) (vals bounds : List Int),
      ∃ c : Column,
        (from_df ⟨[(name, .listB vals bounds)]⟩).cols = [(name, c)]
        ∧ c.row_lengths = some (diffs bounds) := by
  intro name vals bounds
  exact ⟨seriesToColumn (.listB vals bounds), rfl, rfl⟩

/-- C7 counterexample: without cupy installed, even a transfer to the domain
    the column already occupies (host to host, via cpu()) raises ValueError
    instead of being a no-op: the availability check precedes the no-op
    branch. -/
theorem C7_counterexample :
    colCpu false cFlat3 = .error .cupyMissing := by
  rfl

/-- C7 amended: when cupy is available, a transfer to the current domain
    returns the column unchanged with no error, and to_accelerator() followed
    by to_host() leaves the values and row_lengths numerically identical to
    their pre-transfer state. -/
theorem C7_transfer_amended :
    ∀ c : Column,
      setDevice true c c._device = .ok c
      ∧ ∃ c', (match colGpu true c with
          | .ok c1 => colCpu true c1
          | .error e => .error e) = Except.ok c'
        ∧ c'.values.data = c.values.data
        ∧ c'.row_lengths = c.row_lengths := by
  intro c
  constructor
  · cases h : c._device <;> simp [setDevice, h]
  · cases h : c._device
    · exact ⟨device_move c cupy_asarray,
        by simp [colGpu, colCpu, setDevice, h, device_move, cupy_asarray], rfl, rfl⟩
    · exact ⟨device_move c cupy_asnumpy,
        by simp [colGpu, colCpu, setDevice, h, device_move, cupy_asnumpy], rfl, rfl⟩

/-- C8: with no accelerator runtime available, every device transfer request
    (the setter, cpu() and gpu()) raises (ValueError in the source, the
    spec's AcceleratorUnavailableError) and never silently no-ops. -/
theorem C8_unavailable_error :
    ∀ (c : Column) (target : Device),
      setDevice false c target = .error .cupyMissing
      ∧ colCpu false c = .error .cupyMissing
      ∧ colGpu false c = .error .cupyMissing := by
  intro c target
  exact ⟨rfl, rfl, rfl⟩

/-- C9: after to_accelerator() on a host column with cupy available, the
    values buffer has been moved to the accelerator domain, but the device
    setter never assigns self._device, so the device tag still reports CPU
    rather than the target domain. -/
theorem C9_device_tag_eval :
    colGpu true cFlat3 = .ok (device_move cFlat3 cupy_asarray)
    ∧ (device_move cFlat3 cupy_asarray).values.dom = Device.GPU
    ∧ (device_move cFlat3 cupy_asarray)._device = Device.CPU
    ∧ Device.CPU ≠ Device.GPU := by
  refine ⟨rfl, rfl, rfl, by decide⟩

/-- C10: DictArray.__eq__ compares two freshly created dict_values view
    objects, which compare by object identity, so equality is false for
    every pair of tables and every allocator state, including a table
    compared against itself. -/
theorem C10_eq_always_false :
    ∀ (ctr : Nat) (a b : DictArray), dictArrayEq ctr a b = false := by
  intro ctr a b
  simp [dictArrayEq, freshView]

end Dictarray
